import Mathlib

/-!
Shallow embedding of the HeyGen session-viewer frontend
(`src/frontend/src/main.ts`).

The viewer is a single-page script: it reads a session id from the URL query
string, fetches the active-sessions list from a local backend, looks up the
matching record, constructs the SDK client with that record's access token,
registers lifecycle event handlers, and arms a one-shot connection timeout.
All UI output goes through two display-mutating functions, `showVideo` and
`showError`, that toggle the visibility of three DOM regions.

The embedding models the DOM surface as an explicit record, JavaScript
truthiness on optional strings explicitly, event handlers as pure state
transformers, and `setTimeout` calls as emitted `Timer` values.
-/

/-- An opaque media-stream handle (the `event.detail` payload of the SDK's
stream-ready event). Only its identity matters to the viewer. -/
structure MediaStream where
  id : Nat
deriving Repr, DecidableEq

/-- The DOM surface touched by `main.ts`: the CSS `display` style of the three
regions (`loading`, `avatarVideo`, `error`), the error region's text content,
and the video element's `srcObject`. -/
structure DomState where
  loadingDisplay : String
  videoDisplay : String
  errorDisplay : String
  errorText : String
  srcObject : Option MediaStream
deriving Repr, DecidableEq

/-- `showVideo` (main.ts lines 150-154): show the video element, hide the
loading indicator and the error region. -/
def showVideo (st : DomState) : DomState :=
  { st with
    loadingDisplay := "none"
    videoDisplay := "block"
    errorDisplay := "none" }

/-- `showError` (main.ts lines 157-162): hide the loading indicator, set the
error region's text, show the error region, hide the video element. -/
def showError (message : String) (st : DomState) : DomState :=
  { st with
    loadingDisplay := "none"
    errorText := message
    errorDisplay := "block"
    videoDisplay := "none" }

/-- A session record as returned by the backend's sessions-listing endpoint:
either identifier alias and the access token may be absent. -/
structure SessionRecord where
  local_session_id : Option String
  session_id : Option String
  access_token : Option String
deriving Repr, DecidableEq

/-- The JSON body of the sessions-listing response; the `active_sessions`
field itself may be absent (the code guards it with `?.`). -/
structure SessionsResponse where
  active_sessions : Option (List SessionRecord)
deriving Repr, DecidableEq

/-- The `find` predicate of main.ts lines 38-40: a record matches when either
alias strictly equals the session id. -/
def sessionMatches (sid : String) (s : SessionRecord) : Bool :=
  s.local_session_id == some sid || s.session_id == some sid

/-- `data.active_sessions?.find(...)` (main.ts lines 38-40): linear scan over
the list; an absent `active_sessions` field yields no match. -/
def findSession (sid : String) (data : SessionsResponse) : Option SessionRecord :=
  (data.active_sessions.getD []).find? (sessionMatches sid)

/-- JavaScript truthiness of a nullable string: `null`/`undefined` and the
empty string are falsy. -/
def jsTruthyStr : Option String → Bool
  | none => false
  | some s => !(s == "")

/-- URL query parameters read by the viewer (main.ts lines 9-10), each
`URLSearchParams.get` result being a nullable string. -/
structure UrlParams where
  local_session_id : Option String
  session_id : Option String
deriving Repr, DecidableEq

/-- `params.get("local_session_id") || params.get("session_id")`
(main.ts line 10): JavaScript `||` falls through on a falsy left operand, so a
present-but-empty `local_session_id` is skipped. -/
def sessionIdOf (p : UrlParams) : Option String :=
  match p.local_session_id with
  | some s => if s == "" then p.session_id else some s
  | none => p.session_id

/-- Character-list version of `String.startsWith`, used to model JavaScript
`String.prototype.includes`. -/
def seqStarts : List Char → List Char → Bool
  | [], _ => true
  | _ :: _, [] => false
  | a :: as, b :: bs => a == b && seqStarts as bs

/-- Scan for an occurrence of `n` anywhere in the second list. -/
def seqContains (n : List Char) : List Char → Bool
  | [] => seqStarts n []
  | b :: bs => seqStarts n (b :: bs) || seqContains n bs

/-- JavaScript `hay.includes(needle)`. -/
def containsSub (needle hay : String) : Bool :=
  seqContains needle.data hay.data

/-- The "server unreachable" hint shown when the caught error message contains
the substring `fetch` (main.ts line 142). -/
def serverUnreachableMsg : String :=
  "Cannot connect to server. Is the backend running on localhost:3001?"

/-- The `catch` handler of `main` (main.ts lines 139-146): an error whose
message contains `fetch` displays the server-unreachable hint; every other
error displays the generic failed-to-initialize text carrying
`err.message || 'Unknown error'`. An absent message (`err.message?` is
`undefined`) takes the generic branch with `Unknown error`. -/
def catchMessage : Option String → String
  | some m =>
      if containsSub "fetch" m then serverUnreachableMsg
      else "Failed to initialize avatar: " ++ (if m == "" then "Unknown error" else m)
  | none => "Failed to initialize avatar: Unknown error"

/-- The two callbacks the viewer ever hands to `setTimeout`: the connection
timeout check (main.ts line 132) and the page close on disconnect
(main.ts line 109). -/
inductive TimerAction
  | timeoutCheck
  | closePage
deriving Repr, DecidableEq

/-- A `setTimeout` registration: delay in milliseconds and the action run when
it fires. -/
structure Timer where
  delay : Nat
  action : TimerAction
deriving Repr, DecidableEq

/-- The session-lookup and token-extraction steps of `main`
(main.ts lines 38-53): not-found and missing-token conditions are thrown as
errors with the exact messages of the source; a found record with a truthy
token yields that token. An empty-string token is falsy in JavaScript
(`if (!accessToken)`), hence also the missing-token error. -/
def initFromData (sid : String) (data : SessionsResponse) : Except String String :=
  match findSession sid data with
  | none => .error "Session not found in active sessions"
  | some s =>
      match s.access_token with
      | none => .error "Session found but access_token is missing"
      | some t => if t == "" then .error "Session found but access_token is missing" else .ok t

/-- The body of `main` after the fetch has delivered a parsed response
(main.ts lines 38-146): on a thrown lookup error the catch handler maps the
message and calls `showError`; on success the SDK client is constructed with
the extracted token (recorded in the returned token list, one entry per
construction) and the one-shot 300000 ms connection-timeout timer is armed.
Handler registration and the best-effort fullscreen request mutate no modelled
state. -/
def runMainAfterFetch (sid : String) (data : SessionsResponse) (st : DomState) :
    DomState × List String × List Timer :=
  match initFromData sid data with
  | .error m => (showError (catchMessage (some m)) st, [], [])
  | .ok t => (st, [t], [⟨300000, .timeoutCheck⟩])

/-- The connection-timeout message (main.ts line 135). -/
def timeoutMsg : String :=
  "Connection timeout. The session may have expired or there may be a network issue. Please try restarting the session."

/-- The timeout callback (main.ts lines 132-137): when the video element still
has no `srcObject` it shows the connection-timeout error; it arms no further
timer. -/
def timeoutCheckRun (st : DomState) : DomState × List Timer :=
  if st.srcObject.isNone then (showError timeoutMsg st, []) else (st, [])

/-- The STREAM_DISCONNECTED handler (main.ts lines 104-112): clear the video
element's `srcObject`, show the disconnect message, and schedule a page close
after 2000 ms. -/
def handleStreamDisconnected (st : DomState) : DomState × List Timer :=
  (showError "Avatar disconnected. Closing..." { st with srcObject := none },
   [⟨2000, .closePage⟩])

/-- A STREAM_READY event payload; its `detail` field, when present, carries
the media stream. -/
structure StreamReadyEvent where
  detail : Option MediaStream
deriving Repr, DecidableEq

/-- The synchronous part of the STREAM_READY handler (main.ts lines 70-102):
with `event && event.detail` truthy it attaches the stream to the video
element and registers the metadata/error callbacks (returned flag `true`);
otherwise it shows the no-stream error. -/
def handleStreamReady : Option StreamReadyEvent → DomState → DomState × Bool
  | some e, st =>
      match e.detail with
      | some stream => ({ st with srcObject := some stream }, true)
      | none => (showError "No video stream received from avatar." st, false)
  | none, st => (showError "No video stream received from avatar." st, false)

/-- Outcome of the `videoElement.play()` promise inside `onloadedmetadata`. -/
inductive PlayResult
  | ok
  | failed
deriving Repr, DecidableEq

/-- The `onloadedmetadata` callback registered by the STREAM_READY handler
(main.ts lines 80-91): a successful play shows the video; a rejected play
shows the autoplay-permissions error. -/
def onLoadedMetadata : PlayResult → DomState → DomState
  | .ok, st => showVideo st
  | .failed, st =>
      showError "Failed to play avatar video. Check browser permissions for autoplay." st

/-- The complete observable consequence of a STREAM_READY event: the
synchronous handler runs, and when it registered the callbacks and the video
metadata subsequently loads, the `onloadedmetadata` continuation runs with the
given play outcome. -/
def streamReadyOutcome (ev : Option StreamReadyEvent) (metadataLoads : Bool)
    (play : PlayResult) (st : DomState) : DomState :=
  let p := handleStreamReady ev st
  if p.2 && metadataLoads then onLoadedMetadata play p.1 else p.1

/-- Observable steps of the top-level script before `main`'s event handlers
run: at most one error display and at most one network fetch. -/
inductive ScriptStep
  | showedError (msg : String)
  | fetched
deriving Repr, DecidableEq

/-- The top-level script (main.ts lines 9-21): a falsy session id shows the
missing-id error and throws before `main` is called, so no fetch happens; a
truthy id reaches `main`, whose first action is the fetch (main.ts line 28). -/
def topLevel (p : UrlParams) (st : DomState) : DomState × List ScriptStep :=
  if jsTruthyStr (sessionIdOf p) then (st, [.fetched])
  else (showError "Missing session_id in URL." st, [.showedError "Missing session_id in URL."])

/-- Number of visible regions among the three DOM regions (a region is hidden
exactly when its `display` style is `none`). -/
def visCount (st : DomState) : Nat :=
  (if st.loadingDisplay == "none" then 0 else 1) +
  (if st.videoDisplay == "none" then 0 else 1) +
  (if st.errorDisplay == "none" then 0 else 1)

/-- A concrete initial DOM state: loading indicator visible, video and error
hidden, no stream attached. -/
def initialDomState : DomState :=
  ⟨"block", "none", "none", "", none⟩

/-- Reflexivity of the character-prefix scan. -/
theorem seqStarts_refl (l : List Char) : seqStarts l l = true := by
  induction l with
  | nil => rfl
  | cons a as ih => simp [seqStarts, ih]

/-- A list is a prefix of itself followed by anything. -/
theorem seqStarts_append (a b : List Char) : seqStarts a (a ++ b) = true := by
  induction a with
  | nil => cases b <;> rfl
  | cons c cs ih => simp [seqStarts, ih]

/-- The scan finds `n` at the end of `h ++ n`. -/
theorem seqContains_suffix (n h : List Char) : seqContains n (h ++ n) = true := by
  induction h with
  | nil =>
      cases n with
      | nil => rfl
      | cons c cs =>
          have h1 : seqStarts (c :: cs) (c :: cs) = true := seqStarts_refl _
          simp [seqContains, h1]
  | cons x hs ih => simp [seqContains, ih]

/-- C1 counterexample: a stream-ready event whose payload carries a media
stream does not by itself make the video surface visible — when the
subsequent `videoElement.play()` is rejected, the handler chain shows the
playback error instead, leaving the video hidden and the error region shown.
Concrete input: event with `detail` a stream, metadata loads, play fails,
starting from the loading state. -/
theorem c1_stream_ready_counterexample :
    ¬ ((streamReadyOutcome (some ⟨some ⟨0⟩⟩) true .failed initialDomState).videoDisplay = "block"
        ∧ (streamReadyOutcome (some ⟨some ⟨0⟩⟩) true .failed initialDomState).loadingDisplay = "none"
        ∧ (streamReadyOutcome (some ⟨some ⟨0⟩⟩) true .failed initialDomState).errorDisplay = "none") := by
  decide

/-- C1 (amended): for every stream-ready event whose payload carries a media
stream, the handler attaches that stream to the video surface, and once the
video metadata loads and playback starts successfully, the video surface is
visible and both the loading and error regions are hidden. -/
theorem c1_stream_ready_shows_video (ev : Option StreamReadyEvent) (e : StreamReadyEvent)
    (s : MediaStream) (st : DomState)
    (hev : ev = some e) (hdetail : e.detail = some s) :
    (handleStreamReady ev st).1.srcObject = some s
      ∧ (streamReadyOutcome ev true .ok st).videoDisplay = "block"
      ∧ (streamReadyOutcome ev true .ok st).loadingDisplay = "none"
      ∧ (streamReadyOutcome ev true .ok st).errorDisplay = "none" := by
  subst hev
  simp [handleStreamReady, streamReadyOutcome, onLoadedMetadata, showVideo, hdetail]

/-- C1 witness: concrete run of the amended theorem. -/
theorem c1_stream_ready_shows_video_witness :
    (handleStreamReady (some ⟨some ⟨0⟩⟩) initialDomState).1.srcObject = some ⟨0⟩
      ∧ (streamReadyOutcome (some ⟨some ⟨0⟩⟩) true .ok initialDomState).videoDisplay = "block"
      ∧ (streamReadyOutcome (some ⟨some ⟨0⟩⟩) true .ok initialDomState).loadingDisplay = "none"
      ∧ (streamReadyOutcome (some ⟨some ⟨0⟩⟩) true .ok initialDomState).errorDisplay = "none" :=
  c1_stream_ready_shows_video (some ⟨some ⟨0⟩⟩) ⟨some ⟨0⟩⟩ ⟨0⟩ initialDomState rfl rfl

/-- C6: a URL carrying neither session-id parameter makes the viewer show the
missing-id error; `main` is never entered, so no network fetch step appears in
the script trace (the error is shown with no network call at all). -/
theorem c6_missing_id_no_fetch (p : UrlParams) (st : DomState)
    (h1 : p.local_session_id = none) (h2 : p.session_id = none) :
    (topLevel p st).1.errorText = "Missing session_id in URL."
      ∧ (topLevel p st).1.errorDisplay = "block"
      ∧ ScriptStep.fetched ∉ (topLevel p st).2 := by
  simp [topLevel, sessionIdOf, jsTruthyStr, h1, h2, showError]

/-- C6 witness: concrete run with both parameters absent. -/
theorem c6_missing_id_no_fetch_witness :
    (topLevel ⟨none, none⟩ initialDomState).1.errorText = "Missing session_id in URL."
      ∧ (topLevel ⟨none, none⟩ initialDomState).1.errorDisplay = "block"
      ∧ ScriptStep.fetched ∉ (topLevel ⟨none, none⟩ initialDomState).2 :=
  c6_missing_id_no_fetch ⟨none, none⟩ initialDomState rfl rfl

/-- C7 counterexample: with `local_session_id` present but empty and
`session_id` present as "abc", the identifier used is "abc", not the value of
the present `local_session_id` parameter — JavaScript `||` skips a falsy
(empty) left operand, so presence alone does not win. -/
theorem c7_first_present_counterexample :
    (UrlParams.mk (some "") (some "abc")).local_session_id = some ""
      ∧ sessionIdOf (UrlParams.mk (some "") (some "abc")) = some "abc"
      ∧ sessionIdOf (UrlParams.mk (some "") (some "abc")) ≠ some "" := by
  decide

/-- C7 (amended): the identifier used is the value of `local_session_id` when
that parameter is present with a non-empty value; when `local_session_id` is
absent or empty, the `session_id` parameter's value is used as-is (first
truthy wins, not first present). -/
theorem c7_session_id_selection (p : UrlParams) :
    (∀ v, p.local_session_id = some v → v ≠ "" → sessionIdOf p = some v)
      ∧ ((p.local_session_id = none ∨ p.local_session_id = some "") →
          sessionIdOf p = p.session_id) := by
  constructor
  · intro v hv hne
    simp [sessionIdOf, hv, hne]
  · rintro (h | h) <;> simp [sessionIdOf, h]

/-- C7 witness: concrete runs of both branches of the amended theorem. -/
theorem c7_session_id_selection_witness :
    sessionIdOf (UrlParams.mk (some "x") (some "y")) = some "x"
      ∧ sessionIdOf (UrlParams.mk none (some "y")) = some "y" :=
  ⟨(c7_session_id_selection (UrlParams.mk (some "x") (some "y"))).1 "x" rfl (by decide),
   (c7_session_id_selection (UrlParams.mk none (some "y"))).2 (Or.inl rfl)⟩

/-- C8: on every stream-disconnected event the handler clears the video
element's stream, shows the disconnect message in the error region, and
schedules exactly one page-close timer with the fixed 2000 ms delay. -/
theorem c8_stream_disconnected (st : DomState) :
    (handleStreamDisconnected st).1.srcObject = none
      ∧ (handleStreamDisconnected st).1.errorText = "Avatar disconnected. Closing..."
      ∧ (handleStreamDisconnected st).1.errorDisplay = "block"
      ∧ (handleStreamDisconnected st).2 = [⟨2000, .closePage⟩] := by
  simp [handleStreamDisconnected, showError]

/-- C9: after every invocation of either display-mutating operation, exactly
one of the three DOM regions is visible and the other two are hidden: the
video surface after `showVideo`, the error region after `showError`. -/
theorem c9_exactly_one_visible (st : DomState) (msg : String) :
    visCount (showVideo st) = 1
      ∧ (showVideo st).videoDisplay = "block"
      ∧ visCount (showError msg st) = 1
      ∧ (showError msg st).errorDisplay = "block" := by
  constructor
  · rfl
  · exact ⟨rfl, rfl, rfl⟩

/-- C2: on the successful initialization path `main` arms exactly one timer,
the 300000 ms connection-timeout check; when the timer fires on a state where
no stream has been attached to the video surface — whatever the rest of the
state, in particular with no disconnect event ever having fired — it shows the
connection-timeout error; neither the timeout callback itself nor the
disconnect handler ever arms another timeout-check timer. -/
theorem c2_timeout_one_shot (sid : String) (data : SessionsResponse) (t : String)
    (st st' : DomState)
    (hok : initFromData sid data = .ok t) (hsrc : st'.srcObject = none) :
    (runMainAfterFetch sid data st).2.2 = [⟨300000, .timeoutCheck⟩]
      ∧ (timeoutCheckRun st').1.errorText = timeoutMsg
      ∧ (timeoutCheckRun st').1.errorDisplay = "block"
      ∧ (timeoutCheckRun st').2 = []
      ∧ (handleStreamDisconnected st').2.filter
          (fun tm => tm.action == TimerAction.timeoutCheck) = [] := by
  refine ⟨?_, ?_, ?_, ?_, ?_⟩
  · simp [runMainAfterFetch, hok]
  · simp [timeoutCheckRun, hsrc, showError]
  · simp [timeoutCheckRun, hsrc, showError]
  · simp [timeoutCheckRun, hsrc]
  · rfl

/-- C2 witness: concrete run with a one-record sessions list and the loading
state at timer-fire time. -/
theorem c2_timeout_one_shot_witness :
    (runMainAfterFetch "s1" ⟨some [⟨some "s1", none, some "tok"⟩]⟩ initialDomState).2.2
        = [⟨300000, .timeoutCheck⟩]
      ∧ (timeoutCheckRun initialDomState).1.errorText = timeoutMsg
      ∧ (timeoutCheckRun initialDomState).1.errorDisplay = "block"
      ∧ (timeoutCheckRun initialDomState).2 = []
      ∧ (handleStreamDisconnected initialDomState).2.filter
          (fun tm => tm.action == TimerAction.timeoutCheck) = [] :=
  c2_timeout_one_shot "s1" ⟨some [⟨some "s1", none, some "tok"⟩]⟩ "tok"
    initialDomState initialDomState rfl rfl

/-- C3: whenever the fetched sessions list contains a matching record carrying
a (truthy) access token, the viewer constructs the SDK client exactly once,
with exactly that record's token: the list of constructions is the singleton
of that token. -/
theorem c3_constructs_once (sid : String) (data : SessionsResponse) (s : SessionRecord)
    (t : String) (st : DomState)
    (hfind : findSession sid data = some s) (htok : s.access_token = some t)
    (hne : t ≠ "") :
    (runMainAfterFetch sid data st).2.1 = [t] := by
  have hinit : initFromData sid data = .ok t := by
    unfold initFromData
    rw [hfind]
    simp [htok, hne]
  simp [runMainAfterFetch, hinit]

/-- C3 witness: concrete run with a matching record whose token is "tok". -/
theorem c3_constructs_once_witness :
    (runMainAfterFetch "s1" ⟨some [⟨some "s1", none, some "tok"⟩]⟩ initialDomState).2.1
      = ["tok"] :=
  c3_constructs_once "s1" ⟨some [⟨some "s1", none, some "tok"⟩]⟩
    ⟨some "s1", none, some "tok"⟩ "tok" initialDomState rfl rfl (by decide)

/-- Evaluation of the catch handler on the not-found message: it does not
contain `fetch`, so the generic text is shown. -/
theorem catchMessage_not_found :
    catchMessage (some "Session not found in active sessions")
      = "Failed to initialize avatar: Session not found in active sessions" := by
  decide

/-- Evaluation of the catch handler on the missing-token message: it does not
contain `fetch`, so the generic text is shown. -/
theorem catchMessage_missing_token :
    catchMessage (some "Session found but access_token is missing")
      = "Failed to initialize avatar: Session found but access_token is missing" := by
  decide

/-- C4: whenever no record of the active-sessions list matches the identifier
by either alias (in particular when `active_sessions` is absent, since
`findSession` then scans the empty list), the viewer shows the not-found
error and constructs no SDK client. -/
theorem c4_not_found (sid : String) (data : SessionsResponse) (st : DomState)
    (hfind : findSession sid data = none) :
    (runMainAfterFetch sid data st).1.errorText
        = "Failed to initialize avatar: Session not found in active sessions"
      ∧ (runMainAfterFetch sid data st).1.errorDisplay = "block"
      ∧ (runMainAfterFetch sid data st).2.1 = [] := by
  have hinit : initFromData sid data = .error "Session not found in active sessions" := by
    unfold initFromData
    rw [hfind]
  refine ⟨?_, ?_, ?_⟩ <;>
    simp [runMainAfterFetch, hinit, showError, catchMessage_not_found]

/-- C4 witness: concrete run with an absent `active_sessions` field. -/
theorem c4_not_found_witness :
    (runMainAfterFetch "s1" ⟨none⟩ initialDomState).1.errorText
        = "Failed to initialize avatar: Session not found in active sessions"
      ∧ (runMainAfterFetch "s1" ⟨none⟩ initialDomState).1.errorDisplay = "block"
      ∧ (runMainAfterFetch "s1" ⟨none⟩ initialDomState).2.1 = [] :=
  c4_not_found "s1" ⟨none⟩ initialDomState rfl

/-- C5: whenever the matching record's access token is absent or empty (both
falsy in JavaScript), the viewer shows the missing-token error and constructs
no SDK client. -/
theorem c5_missing_token (sid : String) (data : SessionsResponse) (s : SessionRecord)
    (st : DomState) (hfind : findSession sid data = some s)
    (htok : s.access_token = none ∨ s.access_token = some "") :
    (runMainAfterFetch sid data st).1.errorText
        = "Failed to initialize avatar: Session found but access_token is missing"
      ∧ (runMainAfterFetch sid data st).1.errorDisplay = "block"
      ∧ (runMainAfterFetch sid data st).2.1 = [] := by
  have hinit : initFromData sid data = .error "Session found but access_token is missing" := by
    unfold initFromData
    rw [hfind]
    rcases htok with h | h <;> simp [h]
  refine ⟨?_, ?_, ?_⟩ <;>
    simp [runMainAfterFetch, hinit, showError, catchMessage_missing_token]

/-- C5 witness: concrete run with a matching record whose token field is
absent. -/
theorem c5_missing_token_witness :
    (runMainAfterFetch "s1" ⟨some [⟨some "s1", none, none⟩]⟩ initialDomState).1.errorText
        = "Failed to initialize avatar: Session found but access_token is missing"
      ∧ (runMainAfterFetch "s1" ⟨some [⟨some "s1", none, none⟩]⟩ initialDomState).1.errorDisplay
        = "block"
      ∧ (runMainAfterFetch "s1" ⟨some [⟨some "s1", none, none⟩]⟩ initialDomState).2.1 = [] :=
  c5_missing_token "s1" ⟨some [⟨some "s1", none, none⟩]⟩ ⟨some "s1", none, none⟩
    initialDomState rfl (Or.inl rfl)

/-- C10: the message displayed by the catch handler is determined only by
substring matching on the error's message (the handler is a function of that
message alone): a message containing `fetch` yields the server-unreachable
hint, and any other message yields the generic failed-to-initialize text,
which starts with the generic prefix and contains the error's own message
text. -/
theorem c10_catch_string_matching (m : String) :
    (containsSub "fetch" m = true → catchMessage (some m) = serverUnreachableMsg)
      ∧ (containsSub "fetch" m = false →
          seqStarts "Failed to initialize avatar: ".data (catchMessage (some m)).data = true
            ∧ containsSub m (catchMessage (some m)) = true) := by
  constructor
  · intro h
    simp [catchMessage, h]
  · intro h
    by_cases hm : m = ""
    · subst hm
      exact ⟨by decide, by decide⟩
    · have hcm : catchMessage (some m) = "Failed to initialize avatar: " ++ m := by
        simp [catchMessage, h, hm]
      constructor
      · rw [hcm, String.data_append]
        exact seqStarts_append _ _
      · rw [hcm]
        unfold containsSub
        rw [String.data_append]
        exact seqContains_suffix _ _

/-- C10 witness: a message containing `fetch` maps to the hint, and a message
without it is embedded in the generic text. -/
theorem c10_catch_string_matching_witness :
    catchMessage (some "Failed to fetch") = serverUnreachableMsg
      ∧ containsSub "boom" (catchMessage (some "boom")) = true :=
  ⟨(c10_catch_string_matching "Failed to fetch").1 (by decide),
   ((c10_catch_string_matching "boom").2 (by decide)).2⟩
